import Mathlib

/-!
Verification of the offline audio-mastering engine (preset catalog, DSP spec
builder, two-pass trim computation, loudness/true-peak analyzers, and the WAV
serializer).  All numeric computation is modelled over the rationals; the two
transcendental primitives of the source, base-10 logarithm and the power
function 10^x, are passed as abstract function parameters wherever they occur,
so every definition stays executable and every statement about the surrounding
arithmetic is exact.
-/

namespace Lucky

/-- Source utility: clamp(v, min, max) = Math.max(min, Math.min(max, v)). -/
def clampQ (v lo hi : ℚ) : ℚ := max lo (min hi v)

/-- Limiter parameters of OutputSpec.limiter. -/
structure LimiterSpec where
  thresholdDb : ℚ
  ratio : ℚ
  kneeDb : ℚ
  attackSec : ℚ
  releaseSec : ℚ
deriving DecidableEq

/-- trimClampDb range of OutputSpec. -/
structure TrimClamp where
  min : ℚ
  max : ℚ
deriving DecidableEq

/-- OutputSpec of the source. -/
structure OutputSpec where
  targetIntegratedLUFS : ℚ
  ceilingDbFS : ℚ
  limiter : LimiterSpec
  trimClampDb : TrimClamp
deriving DecidableEq

/-- EQNodeSpec tagged union of the source; optional fields become Option. -/
inductive EQNodeSpec where
  | hpf (freq : ℚ) (order : Option ℕ) (q : Option ℚ)
  | lowshelf (freq gainDb : ℚ) (q : Option ℚ)
  | highshelf (freq gainDb : ℚ) (q : Option ℚ)
  | bell (freq gainDb q : ℚ)
deriving DecidableEq

/-- MultibandBandSpec of the source. -/
structure MultibandBandSpec where
  ratio : ℚ
  thresholdDb : ℚ
  kneeDb : ℚ
  attackSec : ℚ
  releaseSec : ℚ
deriving DecidableEq

/-- MultibandSpec: 4 crossovers and the 5 band compressor specs. -/
structure MultibandSpec where
  xoversHz : ℚ × ℚ × ℚ × ℚ
  bands : List MultibandBandSpec
deriving DecidableEq

/-- BusCompSpec of the source. -/
structure BusCompSpec where
  enabled : Bool
  ratio : ℚ
  thresholdDb : ℚ
  kneeDb : ℚ
  attackSec : ℚ
  releaseSec : ℚ
  sidechainHpfHz : Option ℚ
deriving DecidableEq

/-- StereoSpec of the source; widthHighOnly is a (freq, width) pair. -/
structure StereoSpec where
  monoBelowHz : Option ℚ
  overallWidth : Option ℚ
  widthHighOnly : Option (ℚ × ℚ)
deriving DecidableEq

/-- PresetDSP aggregate of the source. -/
structure PresetDSP where
  eq : List EQNodeSpec
  busComp : Option BusCompSpec
  multiband : MultibandSpec
  stereo : StereoSpec
  output : OutputSpec
  special : Option String
deriving DecidableEq

/-- The sixteen preset identifiers of the preset catalog. -/
inductive PresetKey where
  | deharsh | mudremover | basstamer | vintage | modern | lofi | neosoul
  | festival | focus | immersive | wide | vocalforward | smoothmids
  | dynamic | maximpact | bigcappo
deriving DecidableEq, Fintype

/-- The settings record of a catalog entry (UI strings omitted). -/
structure SliderSettings where
  bass : ℚ
  mid : ℚ
  high : ℚ
  compression : ℚ
  loudness : ℚ
  special : Option String := none
deriving DecidableEq

/-- presets[key].settings from the source catalog. -/
def presetSettings : PresetKey → SliderSettings
  | .deharsh => { bass := 0, mid := -1, high := -3, compression := 4, loudness := -9 }
  | .mudremover => { bass := -2, mid := 2, high := 1, compression := 2, loudness := -9 }
  | .basstamer => { bass := 4, mid := 0, high := 0, compression := 6, loudness := -9 }
  | .vintage => { bass := 3, mid := 1, high := -2, compression := 3, loudness := -9 }
  | .modern => { bass := 1, mid := 0, high := 4, compression := 3, loudness := -9 }
  | .lofi => { bass := 2, mid := -2, high := -4, compression := 5, loudness := -10 }
  | .neosoul => { bass := 2, mid := 3, high := 1, compression := 2, loudness := -9 }
  | .festival => { bass := 5, mid := 2, high := 3, compression := 7, loudness := -8.5 }
  | .focus => { bass := 1, mid := 2, high := 0, compression := 4, loudness := -9 }
  | .immersive => { bass := 0, mid := 1, high := 3, compression := 2, loudness := -9 }
  | .wide => { bass := -1, mid := 0, high := 4, compression := 2, loudness := -9 }
  | .vocalforward => { bass := 1, mid := 5, high := 2, compression := 4, loudness := -9 }
  | .smoothmids => { bass := 1, mid := -2, high := 1, compression := 3, loudness := -9 }
  | .dynamic => { bass := 0, mid := 1, high := 2, compression := 1.5, loudness := -9.5 }
  | .maximpact => { bass := 4, mid := 3, high := 3, compression := 6, loudness := -8.5 }
  | .bigcappo => { bass := 3, mid := 4, high := 1, compression := 3, loudness := -9,
                   special := some "bigcappo" }

/-- UNIVERSAL_OUTPUT constant of the source. -/
def UNIVERSAL_OUTPUT : OutputSpec :=
  { targetIntegratedLUFS := -14.0
    ceilingDbFS := -0.5
    limiter := { thresholdDb := -7.0, ratio := 20, kneeDb := 0,
                 attackSec := 0.001, releaseSec := 0.10 }
    trimClampDb := { min := -24, max := 12 } }

/-- MB_XOVERS constant of the source. -/
def MB_XOVERS : ℚ × ℚ × ℚ × ℚ := (120, 400, 2500, 6000)

/-- A Partial PresetDSP override entry of EXACT_PRESETS. -/
structure PartialPresetDSP where
  eq : Option (List EQNodeSpec) := none
  busComp : Option BusCompSpec := none
  multiband : Option MultibandSpec := none
  stereo : Option StereoSpec := none
  output : Option OutputSpec := none
  special : Option String := none
deriving DecidableEq

/-- The five universal multiband attack/release/knee rows used by the exact
presets, parameterized by the per-band ratio and threshold columns. -/
def mbBands (r1 t1 r2 t2 r3 t3 r4 t4 r5 t5 : ℚ) : List MultibandBandSpec :=
  [ { ratio := r1, thresholdDb := t1, kneeDb := 3, attackSec := 0.025, releaseSec := 0.12 },
    { ratio := r2, thresholdDb := t2, kneeDb := 3, attackSec := 0.015, releaseSec := 0.11 },
    { ratio := r3, thresholdDb := t3, kneeDb := 3, attackSec := 0.010, releaseSec := 0.10 },
    { ratio := r4, thresholdDb := t4, kneeDb := 3, attackSec := 0.005, releaseSec := 0.08 },
    { ratio := r5, thresholdDb := t5, kneeDb := 3, attackSec := 0.002, releaseSec := 0.06 } ]

/-- EXACT_PRESETS hand-authored override table of the source. -/
def EXACT_PRESETS : PresetKey → Option PartialPresetDSP
  | .smoothmids => some
      { eq := some [.hpf 40 (some 2) (some 0.707), .bell 250 (-1.5) 1.5,
                    .highshelf 4000 1.0 (some 0.7)]
        multiband := some
          { xoversHz := MB_XOVERS,
            bands := mbBands 2.0 (-24) 2.0 (-22) 1.6 (-20) 1.5 (-18) 1.4 (-18) }
        stereo := some
          { monoBelowHz := some 120, overallWidth := none,
            widthHighOnly := some (150, 110) }
        output := some UNIVERSAL_OUTPUT }
  | .dynamic => some
      { eq := some [.hpf 35 (some 2) (some 0.707), .highshelf 10000 1.5 (some 0.7)]
        multiband := some
          { xoversHz := MB_XOVERS,
            bands := mbBands 3.0 (-26) 2.0 (-22) 1.6 (-20) 1.5 (-18) 1.4 (-18) }
        stereo := some
          { monoBelowHz := some 120, overallWidth := some 115,
            widthHighOnly := none }
        output := some
          { UNIVERSAL_OUTPUT with
            limiter := { UNIVERSAL_OUTPUT.limiter with thresholdDb := -7 } } }
  | .maximpact => some
      { eq := some [.lowshelf 60 1.0 (some 1.0), .bell 350 (-2.0) 1.8, .bell 8000 0.5 1.0]
        busComp := some { enabled := true, ratio := 4.0, thresholdDb := -18, kneeDb := 6,
                          attackSec := 0.03, releaseSec := 0.10, sidechainHpfHz := some 100 }
        multiband := some
          { xoversHz := MB_XOVERS,
            bands := mbBands 3.5 (-26) 2.5 (-23) 1.8 (-20) 1.6 (-18) 1.4 (-18) }
        stereo := some
          { monoBelowHz := some 120, overallWidth := none,
            widthHighOnly := some (4000, 125) }
        output := some
          { UNIVERSAL_OUTPUT with
            limiter := { UNIVERSAL_OUTPUT.limiter with thresholdDb := -8 } } }
  | .modern => some
      { eq := some [.bell 300 (-1.5) 2.0, .highshelf 12000 2.0 (some 0.7)]
        multiband := some
          { xoversHz := MB_XOVERS,
            bands := mbBands 2.5 (-25) 2.0 (-22) 1.5 (-19) 1.4 (-18) 1.3 (-18) }
        stereo := some
          { monoBelowHz := some 120, overallWidth := none,
            widthHighOnly := some (200, 120) }
        output := some
          { UNIVERSAL_OUTPUT with
            limiter := { UNIVERSAL_OUTPUT.limiter with thresholdDb := -7 } } }
  | .festival => some
      { eq := some [.lowshelf 50 1.5 (some 0.8), .bell 250 (-2.5) 2.0,
                    .highshelf 11000 1.0 (some 0.7), .bell 3200 (-1.0) 2.5]
        multiband := some
          { xoversHz := MB_XOVERS,
            bands := mbBands 5.0 (-28) 3.0 (-24) 1.8 (-20) 1.6 (-18) 1.4 (-18) }
        stereo := some
          { monoBelowHz := some 100, overallWidth := none,
            widthHighOnly := some (5000, 130) }
        output := some
          { UNIVERSAL_OUTPUT with
            limiter := { UNIVERSAL_OUTPUT.limiter with thresholdDb := -9 } } }
  | .bigcappo => some { special := some "bigcappo" }
  | _ => none

/-- Slider-derived low band ratio: clamp(1.8 + comp * 0.45, 1.6, 5.0). -/
def sliderLowRatio (comp : ℚ) : ℚ := clampQ (1.8 + comp * 0.45) 1.6 5.0

/-- Slider-derived low-mid band ratio: clamp(1.6 + comp * 0.28, 1.4, 3.5). -/
def sliderLowMidRatio (comp : ℚ) : ℚ := clampQ (1.6 + comp * 0.28) 1.4 3.5

/-- Slider-derived mid band ratio: clamp(1.3 + comp * 0.12, 1.2, 2.0). -/
def sliderMidRatio (comp : ℚ) : ℚ := clampQ (1.3 + comp * 0.12) 1.2 2.0

/-- Slider-derived high-mid band ratio: clamp(1.2 + comp * 0.10, 1.2, 1.8). -/
def sliderHighMidRatio (comp : ℚ) : ℚ := clampQ (1.2 + comp * 0.10) 1.2 1.8

/-- Slider-derived high band ratio: clamp(1.2 + comp * 0.08, 1.2, 1.6). -/
def sliderHighRatio (comp : ℚ) : ℚ := clampQ (1.2 + comp * 0.08) 1.2 1.6

/-- buildDSPForPreset of the source: slider-derived baseline merged with any
hand-authored EXACT_PRESETS override. -/
def buildDSPForPreset (key : PresetKey) : PresetDSP :=
  let exact := EXACT_PRESETS key
  let s := presetSettings key
  let eq : List EQNodeSpec :=
    [ .hpf 30 (some 2) (some 0.707),
      .lowshelf 120 (clampQ s.bass (-6) 6) (some 1.0),
      .bell 1500 (clampQ s.mid (-6) 6) 1.1,
      .highshelf 12000 (clampQ s.high (-6) 6) (some 0.7) ]
  let comp := clampQ s.compression 1.5 7
  let threshBase := -22 - (comp - 2) * 0.8
  let multiband : MultibandSpec :=
    { xoversHz := MB_XOVERS
      bands :=
        [ { ratio := sliderLowRatio comp, thresholdDb := threshBase - 2, kneeDb := 3,
            attackSec := 0.025, releaseSec := 0.12 },
          { ratio := sliderLowMidRatio comp, thresholdDb := threshBase - 1, kneeDb := 3,
            attackSec := 0.015, releaseSec := 0.11 },
          { ratio := sliderMidRatio comp, thresholdDb := threshBase + 0, kneeDb := 3,
            attackSec := 0.010, releaseSec := 0.10 },
          { ratio := sliderHighMidRatio comp, thresholdDb := threshBase + 1, kneeDb := 3,
            attackSec := 0.005, releaseSec := 0.08 },
          { ratio := sliderHighRatio comp, thresholdDb := threshBase + 1, kneeDb := 3,
            attackSec := 0.002, releaseSec := 0.06 } ] }
  let stereo : StereoSpec :=
    if key = .focus then { monoBelowHz := some 120, overallWidth := some 95, widthHighOnly := none }
    else if key = .wide then { monoBelowHz := some 120, overallWidth := some 125, widthHighOnly := none }
    else if key = .immersive then { monoBelowHz := some 120, overallWidth := some 118, widthHighOnly := none }
    else { monoBelowHz := some 120, overallWidth := some 110, widthHighOnly := none }
  let output : OutputSpec := UNIVERSAL_OUTPUT
  let dsp : PresetDSP :=
    { eq := eq, busComp := none, multiband := multiband, stereo := stereo,
      output := output, special := s.special }
  match exact with
  | some e =>
      { eq := e.eq.getD dsp.eq
        busComp := e.busComp.orElse (fun _ => dsp.busComp)
        multiband := e.multiband.getD dsp.multiband
        stereo := e.stereo.getD dsp.stereo
        output := e.output.getD dsp.output
        special := e.special.orElse (fun _ => dsp.special) }
  | none => dsp

/-- The trim computation of processAudioPremium (source lines 822-830), as a
function of the preset and the two measurements extracted from the analysis
pass. -/
def processTrimDb (key : PresetKey) (integrated tpPre : ℚ) : ℚ :=
  let out := (buildDSPForPreset key).output
  let trim0 := out.targetIntegratedLUFS - integrated
  let trim1 :=
    if out.ceilingDbFS < tpPre + trim0 then min trim0 (out.ceilingDbFS - tpPre) else trim0
  clampQ trim1 out.trimClampDb.min out.trimClampDb.max

/-- Modelled from the spec wording of claim C1: loudness trim first, then the
peak-safety override, then the absolute clamp to trimClampDb. -/
def claimTrimSteps (out : OutputSpec) (measuredIntegratedLUFS measuredTruePeak : ℚ) : ℚ :=
  let step1 := out.targetIntegratedLUFS - measuredIntegratedLUFS
  let step2 :=
    if out.ceilingDbFS < measuredTruePeak + step1 then
      min step1 (out.ceilingDbFS - measuredTruePeak)
    else step1
  max out.trimClampDb.min (min out.trimClampDb.max step2)

/-- Gains of all gain-bearing EQ nodes (a high-pass node carries no gain). -/
def eqGains (l : List EQNodeSpec) : List ℚ :=
  l.flatMap fun n =>
    match n with
    | .hpf _ _ _ => []
    | .lowshelf _ g _ => [g]
    | .highshelf _ g _ => [g]
    | .bell _ g _ => [g]

/-- The four crossover frequencies are strictly increasing. -/
def xoversStrictMono (x : ℚ × ℚ × ℚ × ℚ) : Prop :=
  x.1 < x.2.1 ∧ x.2.1 < x.2.2.1 ∧ x.2.2.1 < x.2.2.2

/-- One node of the serial (audible) signal path of the render graph.  The
multiband and stereo stages are internally parallel; they appear here as single
structured stages carrying their full configuration, since the claims about
the graph concern only the serial topology around them.  Gain stages carry the
linear gain value produced by dbToLin. -/
inductive StageDesc where
  | highpass (freq q : ℚ)
  | lowshelf (freq gain q : ℚ)
  | highshelf (freq gain q : ℚ)
  | peaking (freq gain q : ℚ)
  | compressor (ratio threshold knee attack release : ℚ)
  | gainStage (lin : ℚ)
  | multibandStage (spec : MultibandSpec)
  | stereoStage (spec : StereoSpec)
deriving DecidableEq

/-- The two render modes of the two-pass orchestrator. -/
inductive RenderMode where
  | preOutput
  | final
deriving DecidableEq

/-- applyFilterChain of the source, as the list of biquad stages it connects in
series: an hpf of order 2 becomes two cascaded identical high-pass stages; the
q defaults are 0.707 (hpf), 1.0 (lowshelf), 0.7 (highshelf). -/
def applyFilterChainStages (eq : List EQNodeSpec) : List StageDesc :=
  eq.flatMap fun s =>
    match s with
    | .hpf f ord q =>
        if ord = some 2 then
          [.highpass f (q.getD 0.707), .highpass f (q.getD 0.707)]
        else
          [.highpass f (q.getD 0.707)]
    | .lowshelf f g q => [.lowshelf f g (q.getD 1.0)]
    | .highshelf f g q => [.highshelf f g (q.getD 0.7)]
    | .bell f g q => [.peaking f g q]

/-- applyBusComp of the source as the list of stages it inserts into the
signal path: nothing when absent or disabled; otherwise the optional sidechain
high-pass (Q 0.707) connected in series in front of the compressor. -/
def applyBusCompStages (spec : Option BusCompSpec) : List StageDesc :=
  match spec with
  | none => []
  | some s =>
      if s.enabled then
        (match s.sidechainHpfHz with
         | some f => [.highpass f 0.707]
         | none => []) ++
        [.compressor (clampQ s.ratio 1 20) s.thresholdDb s.kneeDb
          (clampQ s.attackSec 0.001 0.25) (clampQ s.releaseSec 0.03 0.5)]
      else []

/-- The serial audible signal path built by renderPresetGraph: safety HPF, EQ
chain, optional warmth node (special == bigcappo or the autoTune flag), bus
compressor, multiband, stereo shaping (skipped for mono), and in final mode
the trim gain, limiter, and ceiling gain of applyLimiterAndCeiling. -/
def renderPresetGraphStages (dbToLin : ℚ → ℚ) (dsp : PresetDSP) (useAutoTune : Bool)
    (mode : RenderMode) (trimDb : ℚ) (numChannels : ℕ) : List StageDesc :=
  [.highpass 30 0.707] ++
  applyFilterChainStages dsp.eq ++
  (if dsp.special = some "bigcappo" ∨ useAutoTune = true then [.peaking 400 (-2) 1.2] else []) ++
  applyBusCompStages dsp.busComp ++
  [.multibandStage dsp.multiband] ++
  (if numChannels < 2 then [] else [.stereoStage dsp.stereo]) ++
  (match mode with
   | .preOutput => []
   | .final =>
       [.gainStage (dbToLin trimDb),
        .compressor dsp.output.limiter.ratio dsp.output.limiter.thresholdDb
          dsp.output.limiter.kneeDb dsp.output.limiter.attackSec dsp.output.limiter.releaseSec,
        .gainStage (dbToLin dsp.output.ceilingDbFS)])

/-- Decoded audio buffer: per-channel sample lists over ℚ.  The length field is
the per-channel sample count reported by the buffer (AudioBuffer.length). -/
structure AudioBuf where
  sampleRate : ℕ
  length : ℕ
  channelData : List (List ℚ)
deriving DecidableEq

/-- numberOfChannels of a buffer. -/
def AudioBuf.numberOfChannels (b : AudioBuf) : ℕ := b.channelData.length

/-- Sample i of channel c (in-range reads of getChannelData(c)[i]). -/
def AudioBuf.sample (b : AudioBuf) (c i : ℕ) : ℚ := (b.channelData.getD c []).getD i 0

/-- Inner oversampling scan of estimateTruePeakDbFS for one sample pair: start
from max(peak, abs a, abs b), then fold the linearly interpolated magnitudes at
t = k/os for k = 1 .. os-1. -/
def pairPeak (os : ℕ) (a b p : ℚ) : ℚ :=
  (List.range (os - 1)).foldl
    (fun acc (j : ℕ) => max acc |a + (b - a) * (((j : ℚ) + 1) / (os : ℚ))|)
    (max (max p |a|) |b|)

/-- Per-channel loop of estimateTruePeakDbFS over consecutive sample pairs. -/
def channelPeak (os : ℕ) (ch : List ℚ) (len : ℕ) (p : ℚ) : ℚ :=
  (List.range (len - 1)).foldl (fun acc i => pairPeak os (ch.getD i 0) (ch.getD (i + 1) 0) acc) p

/-- The linear peak accumulated by estimateTruePeakDbFS over the whole buffer. -/
def truePeakLin (b : AudioBuf) (os : ℕ) : ℚ :=
  b.channelData.foldl (fun p ch => channelPeak os ch b.length p) 0

/-- estimateTruePeakDbFS of the source: linToDb of the accumulated linear peak,
with linToDb lin = 20 * log10 (max 1e-12 lin); log10 is abstract. -/
def estimateTruePeakDbFS (log10 : ℚ → ℚ) (b : AudioBuf) (os : ℕ) : ℚ :=
  20 * log10 (max 1e-12 (truePeakLin b os))

/-- Modelled from the claim wording of C9: the maximum absolute value over all
raw samples of all channels (no interpolation). -/
def samplePeakLin (b : AudioBuf) : ℚ :=
  b.channelData.foldl
    (fun p ch => (List.range b.length).foldl (fun acc i => max acc |ch.getD i 0|) p) 0

/-- Block length of the R128 gating loop: max(1, floor(sr * 0.400)). -/
def blockLenOf (b : AudioBuf) : ℕ := max 1 (Int.toNat ⌊(b.sampleRate : ℚ) * 0.4⌋)

/-- Hop size of the R128 gating loop: max(1, floor(sr * 0.100)). -/
def stepOf (b : AudioBuf) : ℕ := max 1 (Int.toNat ⌊(b.sampleRate : ℚ) * 0.1⌋)

/-- The block start offsets visited by the gating loop: multiples of the hop
size while start + blockLen <= buffer length. -/
def blockStarts (b : AudioBuf) : List ℕ :=
  let bl := blockLenOf b
  let st := stepOf b
  (List.range (if bl ≤ b.length then (b.length - bl) / st + 1 else 0)).map (· * st)

/-- Sum of squared samples of one channel over a block window. -/
def sumSquares (ch : List ℚ) (start blockLen : ℕ) : ℚ :=
  ((List.range blockLen).map (fun j => ch.getD (start + j) 0 * ch.getD (start + j) 0)).sum

/-- Channel-averaged mean square of one block. -/
def blockMeanSquare (b : AudioBuf) (start blockLen : ℕ) : ℚ :=
  ((b.channelData.map (fun ch => sumSquares ch start blockLen / (blockLen : ℚ))).sum) /
    (b.channelData.length : ℚ)

/-- Per-block loudness: -0.691 + 10 * log10(max(1e-12, meanSquare)). -/
def blockLUFSval (log10 : ℚ → ℚ) (ms : ℚ) : ℚ := -0.691 + 10 * log10 (max 1e-12 ms)

/-- The list of per-block loudness values of integratedLUFS_R128Gated. -/
def blocksOf (log10 : ℚ → ℚ) (b : AudioBuf) : List ℚ :=
  (blockStarts b).map (fun s => blockLUFSval log10 (blockMeanSquare b s (blockLenOf b)))

/-- lufsBlocksToMeanSquare of the source; pow10 models x => Math.pow(10, x). -/
def lufsBlocksToMeanSquare (pow10 : ℚ → ℚ) (ls : List ℚ) : ℚ :=
  (ls.map (fun l => pow10 ((l + 0.691) / 10))).sum / (ls.length : ℚ)

/-- Blocks surviving the absolute gate at -70 LUFS. -/
def absGatedOf (log10 : ℚ → ℚ) (b : AudioBuf) : List ℚ :=
  (blocksOf log10 b).filter (fun l => decide ((-70 : ℚ) < l))

/-- The ungated loudness estimate computed from the absolute-gated blocks. -/
def ungatedOf (log10 pow10 : ℚ → ℚ) (b : AudioBuf) : ℚ :=
  -0.691 + 10 * log10 (max 1e-12 (lufsBlocksToMeanSquare pow10 (absGatedOf log10 b)))

/-- Blocks surviving the relative gate at (ungated - 10 LU). -/
def relGatedOf (log10 pow10 : ℚ → ℚ) (b : AudioBuf) : List ℚ :=
  (absGatedOf log10 b).filter (fun l => decide (ungatedOf log10 pow10 b - 10 < l))

/-- integratedLUFS_R128Gated of the source.  The none result models the
-Infinity sentinel the source returns when the buffer holds no complete 400 ms
block; every other path yields a finite value. -/
def integratedLUFS_R128Gated (log10 pow10 : ℚ → ℚ) (b : AudioBuf) : Option ℚ :=
  if blocksOf log10 b = [] then none
  else if absGatedOf log10 b = [] then some (-70)
  else if relGatedOf log10 pow10 b = [] then some (ungatedOf log10 pow10 b)
  else some (-0.691 + 10 * log10 (max 1e-12 (lufsBlocksToMeanSquare pow10 (relGatedOf log10 pow10 b))))

/-- Two little-endian bytes of DataView.setUint16 (value taken mod 2^16). -/
def u16le (n : ℕ) : List ℕ := [n % 256, n / 256 % 256]

/-- Four little-endian bytes of DataView.setUint32 (value taken mod 2^32). -/
def u32le (n : ℕ) : List ℕ := [n % 256, n / 256 % 256, n / 65536 % 256, n / 16777216 % 256]

/-- Two little-endian bytes of DataView.setInt16: two's complement mod 2^16. -/
def int16le (i : ℤ) : List ℕ := u16le (i % 65536).toNat

/-- Truncation toward zero, the integer conversion DataView.setInt16 applies to
a non-integral number. -/
def truncQ (q : ℚ) : ℤ := if 0 ≤ q then ⌊q⌋ else ⌈q⌉

/-- The float-to-int16 sample conversion of bufferToWav: clamp to [-1, 1], then
scale by 0x8000 when negative and 0x7FFF otherwise. -/
def floatToInt16Q (x : ℚ) : ℤ :=
  let s := max (-1) (min 1 x)
  truncQ (if s < 0 then s * 32768 else s * 32767)

/-- The interleaved 16-bit PCM payload written by bufferToWav from offset 44:
sample-major, channel-minor. -/
def wavDataBytes (b : AudioBuf) : List ℕ :=
  (List.range b.length).flatMap fun i =>
    (List.range b.channelData.length).flatMap fun c =>
      int16le (floatToInt16Q (b.sample c i))

/-- bufferToWav of the source as the full byte list: the 44-byte RIFF/WAVE
header written at offsets 0..43 followed by the PCM payload. -/
def bufferToWav (b : AudioBuf) : List ℕ :=
  let C := b.channelData.length
  let len := b.length * C * 2
  [82, 73, 70, 70] ++ u32le (36 + len) ++
  [87, 65, 86, 69] ++ [102, 109, 116, 32] ++
  u32le 16 ++ u16le 1 ++ u16le C ++ u32le b.sampleRate ++ u32le (b.sampleRate * C * 2) ++
  u16le (C * 2) ++ u16le 16 ++
  [100, 97, 116, 97] ++ u32le len ++
  wavDataBytes b

/-- Little-endian signed 16-bit PCM decoder (the inverse serialization used to
state the round-trip property of claim C7). -/
def decodePCM16 : List ℕ → List ℤ
  | b0 :: b1 :: rest =>
      (if 32768 ≤ (b0 : ℤ) + 256 * (b1 : ℤ) then (b0 : ℤ) + 256 * (b1 : ℤ) - 65536
       else (b0 : ℤ) + 256 * (b1 : ℤ)) :: decodePCM16 rest
  | _ => []

/-- Lower bound of clampQ. -/
theorem clampQ_lower (v lo hi : ℚ) : lo ≤ clampQ v lo hi := le_max_left _ _

/-- Upper bound of clampQ when the range is nonempty. -/
theorem clampQ_upper (v lo hi : ℚ) (h : lo ≤ hi) : clampQ v lo hi ≤ hi :=
  max_le h (min_le_left _ _)

/-- clampQ is monotone in its value argument. -/
theorem clampQ_mono (lo hi : ℚ) {a b : ℚ} (h : a ≤ b) : clampQ a lo hi ≤ clampQ b lo hi :=
  max_le_max le_rfl (min_le_min le_rfl h)

/-- clampQ does not exceed its value argument when the value is above the floor. -/
theorem clampQ_le_self (v lo hi : ℚ) (h : lo ≤ v) : clampQ v lo hi ≤ v :=
  max_le h (min_le_right _ _)

/-- A peaking stage never equals a high-pass stage. -/
@[simp] theorem peaking_ne_highpass (a b c f q : ℚ) :
    (StageDesc.peaking a b c = StageDesc.highpass f q) = False :=
  eq_false fun h => StageDesc.noConfusion h

/-- A peaking stage never equals a low-shelf stage. -/
@[simp] theorem peaking_ne_lowshelf (a b c f g q : ℚ) :
    (StageDesc.peaking a b c = StageDesc.lowshelf f g q) = False :=
  eq_false fun h => StageDesc.noConfusion h

/-- A peaking stage never equals a high-shelf stage. -/
@[simp] theorem peaking_ne_highshelf (a b c f g q : ℚ) :
    (StageDesc.peaking a b c = StageDesc.highshelf f g q) = False :=
  eq_false fun h => StageDesc.noConfusion h

/-- A peaking stage never equals a compressor stage. -/
@[simp] theorem peaking_ne_compressor (a b c r t k at2 rl : ℚ) :
    (StageDesc.peaking a b c = StageDesc.compressor r t k at2 rl) = False :=
  eq_false fun h => StageDesc.noConfusion h

/-- A peaking stage never equals a gain stage. -/
@[simp] theorem peaking_ne_gainStage (a b c g : ℚ) :
    (StageDesc.peaking a b c = StageDesc.gainStage g) = False :=
  eq_false fun h => StageDesc.noConfusion h

/-- A peaking stage never equals a multiband stage. -/
@[simp] theorem peaking_ne_multibandStage (a b c : ℚ) (m : MultibandSpec) :
    (StageDesc.peaking a b c = StageDesc.multibandStage m) = False :=
  eq_false fun h => StageDesc.noConfusion h

/-- A peaking stage never equals a stereo stage. -/
@[simp] theorem peaking_ne_stereoStage (a b c : ℚ) (s : StereoSpec) :
    (StageDesc.peaking a b c = StageDesc.stereoStage s) = False :=
  eq_false fun h => StageDesc.noConfusion h

/-- C1.  For every preset identifier and every pair of measured values from the
analysis pass, the trim computed by processAudioPremium equals the three-step
recipe of the spec: loudness trim, then the conditional peak-safety reduction
to min(trimDb, ceiling - truePeak), then the clamp to trimClampDb. -/
theorem C1_trim_three_steps (key : PresetKey) (measuredIntegratedLUFS measuredTruePeak : ℚ) :
    processTrimDb key measuredIntegratedLUFS measuredTruePeak =
      claimTrimSteps (buildDSPForPreset key).output measuredIntegratedLUFS measuredTruePeak := by
  rfl

/-- C2 counterexample.  With preset deharsh (UNIVERSAL_OUTPUT: target -14,
ceiling -0.5, trim clamp [-24, +12]) and measured values LUFS = -14, true peak
= +30 dBFS, the peak-safety condition triggers, yet the final trim is raised to
the clamp floor -24 and the predicted post-trim peak 30 - 24 = 6 dBFS exceeds
the ceiling: the claimed inequality fails on the code. -/
theorem C2_counterexample :
    (buildDSPForPreset PresetKey.deharsh).output.ceilingDbFS <
        30 + ((buildDSPForPreset PresetKey.deharsh).output.targetIntegratedLUFS - (-14)) ∧
      ¬(30 + processTrimDb PresetKey.deharsh (-14) 30 ≤
          (buildDSPForPreset PresetKey.deharsh).output.ceilingDbFS) := by
  norm_num [buildDSPForPreset, EXACT_PRESETS, presetSettings, UNIVERSAL_OUTPUT,
    processTrimDb, clampQ, min_def, max_def]

/-- C2 amended.  Whenever the peak-safety condition triggers and the
peak-safety reduction is not cut short by the lower trim clamp (that is,
trimClampDb.min <= ceiling - measured true peak), the final trim keeps the
predicted post-trim peak at or below the ceiling. -/
theorem C2_peak_safety_amended (key : PresetKey) (measuredIntegratedLUFS measuredTruePeak : ℚ)
    (htrig : (buildDSPForPreset key).output.ceilingDbFS <
      measuredTruePeak +
        ((buildDSPForPreset key).output.targetIntegratedLUFS - measuredIntegratedLUFS))
    (hclamp : (buildDSPForPreset key).output.trimClampDb.min ≤
      (buildDSPForPreset key).output.ceilingDbFS - measuredTruePeak) :
    measuredTruePeak + processTrimDb key measuredIntegratedLUFS measuredTruePeak ≤
      (buildDSPForPreset key).output.ceilingDbFS := by
  simp only [processTrimDb, clampQ]
  rw [if_pos htrig]
  have h1 : min (buildDSPForPreset key).output.trimClampDb.max
      (min ((buildDSPForPreset key).output.targetIntegratedLUFS - measuredIntegratedLUFS)
        ((buildDSPForPreset key).output.ceilingDbFS - measuredTruePeak)) ≤
      (buildDSPForPreset key).output.ceilingDbFS - measuredTruePeak :=
    le_trans (min_le_right _ _) (min_le_right _ _)
  have h2 := max_le hclamp h1
  linarith

/-- C2 witness: deharsh, measured LUFS -14, measured true peak +10 dBFS; the
condition triggers, the clamp floor is below ceiling - peak, and the post-trim
predicted peak lands exactly on the -0.5 dBFS ceiling. -/
theorem C2_peak_safety_amended_witness :
    ((buildDSPForPreset PresetKey.deharsh).output.ceilingDbFS <
        10 + ((buildDSPForPreset PresetKey.deharsh).output.targetIntegratedLUFS - (-14))) ∧
      ((buildDSPForPreset PresetKey.deharsh).output.trimClampDb.min ≤
        (buildDSPForPreset PresetKey.deharsh).output.ceilingDbFS - 10) ∧
      (10 + processTrimDb PresetKey.deharsh (-14) 10 ≤
        (buildDSPForPreset PresetKey.deharsh).output.ceilingDbFS) := by
  have h1 : (buildDSPForPreset PresetKey.deharsh).output.ceilingDbFS <
      10 + ((buildDSPForPreset PresetKey.deharsh).output.targetIntegratedLUFS - (-14)) := by
    norm_num [buildDSPForPreset, EXACT_PRESETS, presetSettings, UNIVERSAL_OUTPUT]
  have h2 : (buildDSPForPreset PresetKey.deharsh).output.trimClampDb.min ≤
      (buildDSPForPreset PresetKey.deharsh).output.ceilingDbFS - 10 := by
    norm_num [buildDSPForPreset, EXACT_PRESETS, presetSettings, UNIVERSAL_OUTPUT]
  exact ⟨h1, h2, C2_peak_safety_amended PresetKey.deharsh (-14) 10 h1 h2⟩

/-- C3.  For every preset key, the built PresetDSP has strictly increasing
crossovers, all multiband ratios within [1, 20], a ceiling at or below 0 dBFS,
and, when no hand-authored EQ override exists for the preset, all EQ gains
within [-6, +6] dB. -/
theorem C3_preset_invariants (key : PresetKey) :
    xoversStrictMono (buildDSPForPreset key).multiband.xoversHz ∧
      (∀ band ∈ (buildDSPForPreset key).multiband.bands,
        1 ≤ band.ratio ∧ band.ratio ≤ 20) ∧
      (buildDSPForPreset key).output.ceilingDbFS ≤ 0 ∧
      ((EXACT_PRESETS key).bind (fun e => e.eq) = none →
        ∀ g ∈ eqGains (buildDSPForPreset key).eq, -6 ≤ g ∧ g ≤ 6) := by
  cases key <;>
    norm_num [buildDSPForPreset, EXACT_PRESETS, presetSettings, UNIVERSAL_OUTPUT, MB_XOVERS,
      mbBands, xoversStrictMono, eqGains, sliderLowRatio, sliderLowMidRatio, sliderMidRatio,
      sliderHighMidRatio, sliderHighRatio, clampQ, min_def, max_def, List.forall_mem_cons]

/-- C3 witness: preset deharsh has no hand-authored EQ override and its first
slider-derived EQ gain is inside [-6, +6]. -/
theorem C3_preset_invariants_witness :
    ((EXACT_PRESETS PresetKey.deharsh).bind (fun e => e.eq) = none) ∧
      (- 6 ≤ clampQ 0 (-6) 6 ∧ clampQ 0 (-6) 6 ≤ 6) := by
  have hnone : (EXACT_PRESETS PresetKey.deharsh).bind (fun e => e.eq) = none := by
    simp [EXACT_PRESETS]
  have hmem : clampQ 0 (-6) 6 ∈ eqGains (buildDSPForPreset PresetKey.deharsh).eq := by
    simp [buildDSPForPreset, EXACT_PRESETS, presetSettings, eqGains]
  exact ⟨hnone, (C3_preset_invariants PresetKey.deharsh).2.2.2 hnone _ hmem⟩

/-- C5 counterexample.  For the maximpact preset's enabled bus compressor with
sidechain high-pass at 100 Hz, the 100 Hz high-pass node is a member of the
serial audible signal path built by applyBusComp: the output signal path IS
filtered by the sidechain high-pass, contradicting the claim that only the
detector side is. -/
theorem C5_counterexample :
    StageDesc.highpass 100 0.707 ∈
      applyBusCompStages (buildDSPForPreset PresetKey.maximpact).busComp := by
  simp [applyBusCompStages, buildDSPForPreset, EXACT_PRESETS, presetSettings, Option.orElse]

/-- C5 amended.  For every enabled BusCompSpec with a sidechain high-pass
frequency set, applyBusComp inserts the high-pass in series into the main
signal path immediately in front of the compressor, so it shapes the
compressor's detector input and the audible output path alike (WebAudio's
DynamicsCompressorNode has no separate detector input). -/
theorem C5_sidechain_in_main_path (s : BusCompSpec) (f : ℚ)
    (hen : s.enabled = true) (hsc : s.sidechainHpfHz = some f) :
    applyBusCompStages (some s) =
      [StageDesc.highpass f 0.707,
       StageDesc.compressor (clampQ s.ratio 1 20) s.thresholdDb s.kneeDb
         (clampQ s.attackSec 0.001 0.25) (clampQ s.releaseSec 0.03 0.5)] := by
  simp [applyBusCompStages, hen, hsc]

/-- C5 witness: the maximpact bus compressor spec. -/
theorem C5_sidechain_in_main_path_witness :
    (({ enabled := true, ratio := 4.0, thresholdDb := -18, kneeDb := 6, attackSec := 0.03,
        releaseSec := 0.10, sidechainHpfHz := some 100 } : BusCompSpec).enabled = true) ∧
      applyBusCompStages
          (some { enabled := true, ratio := 4.0, thresholdDb := -18, kneeDb := 6,
                  attackSec := 0.03, releaseSec := 0.10, sidechainHpfHz := some 100 }) =
        [StageDesc.highpass 100 0.707,
         StageDesc.compressor (clampQ 4.0 1 20) (-18) 6
           (clampQ 0.03 0.001 0.25) (clampQ 0.10 0.03 0.5)] :=
  ⟨rfl, C5_sidechain_in_main_path _ 100 rfl rfl⟩

/-- C8.  For every compression slider value, writing c for its clamp to
[1.5, 7]: the five slider-derived multiband ratios are ordered hardest (low
band) to softest (high band), and each band ratio is monotonically
non-decreasing in the slider value. -/
theorem C8_slider_ratios (x : ℚ) :
    (sliderLowMidRatio (clampQ x 1.5 7) ≤ sliderLowRatio (clampQ x 1.5 7) ∧
      sliderMidRatio (clampQ x 1.5 7) ≤ sliderLowMidRatio (clampQ x 1.5 7) ∧
      sliderHighMidRatio (clampQ x 1.5 7) ≤ sliderMidRatio (clampQ x 1.5 7) ∧
      sliderHighRatio (clampQ x 1.5 7) ≤ sliderHighMidRatio (clampQ x 1.5 7)) ∧
      ∀ y : ℚ, x ≤ y →
        (sliderLowRatio (clampQ x 1.5 7) ≤ sliderLowRatio (clampQ y 1.5 7) ∧
          sliderLowMidRatio (clampQ x 1.5 7) ≤ sliderLowMidRatio (clampQ y 1.5 7) ∧
          sliderMidRatio (clampQ x 1.5 7) ≤ sliderMidRatio (clampQ y 1.5 7) ∧
          sliderHighMidRatio (clampQ x 1.5 7) ≤ sliderHighMidRatio (clampQ y 1.5 7) ∧
          sliderHighRatio (clampQ x 1.5 7) ≤ sliderHighRatio (clampQ y 1.5 7)) := by
  have hlo : (1.5 : ℚ) ≤ clampQ x 1.5 7 := clampQ_lower _ _ _
  have hhi : clampQ x 1.5 7 ≤ 7 := clampQ_upper _ _ _ (by norm_num)
  set c := clampQ x 1.5 7 with hc
  constructor
  · refine ⟨?_, ?_, ?_, ?_⟩
    · -- low-mid <= low; the low value 1.8 + 0.45 c is inside [1.6, 5]
      have hlow : sliderLowRatio c = 1.8 + c * 0.45 := by
        unfold sliderLowRatio clampQ
        rw [min_eq_right (by linarith), max_eq_right (by linarith)]
      rw [hlow]
      unfold sliderLowMidRatio clampQ
      exact max_le (by linarith) (le_trans (min_le_right _ _) (by linarith))
    · -- mid <= low-mid; low-mid is at least 2.02, mid is at most 2
      have h1 : sliderMidRatio c ≤ 2.0 := clampQ_upper _ _ _ (by norm_num)
      have h2 : (2.02 : ℚ) ≤ sliderLowMidRatio c := by
        unfold sliderLowMidRatio clampQ
        exact le_trans (le_min (by norm_num) (by linarith)) (le_max_right _ _)
      linarith
    · -- high-mid <= mid
      have h1 : (1.2 : ℚ) ≤ sliderMidRatio c := clampQ_lower _ _ _
      have h2 : min (1.8 : ℚ) (1.2 + c * 0.10) ≤ min (2.0 : ℚ) (1.3 + c * 0.12) :=
        min_le_min (by norm_num) (by linarith)
      have h3 : min (2.0 : ℚ) (1.3 + c * 0.12) ≤ sliderMidRatio c := by
        unfold sliderMidRatio clampQ
        exact le_max_right _ _
      unfold sliderHighMidRatio clampQ
      exact max_le h1 (le_trans h2 h3)
    · -- high <= high-mid
      have h1 : (1.2 : ℚ) ≤ sliderHighMidRatio c := clampQ_lower _ _ _
      have h2 : min (1.6 : ℚ) (1.2 + c * 0.08) ≤ min (1.8 : ℚ) (1.2 + c * 0.10) :=
        min_le_min (by norm_num) (by linarith)
      have h3 : min (1.8 : ℚ) (1.2 + c * 0.10) ≤ sliderHighMidRatio c := by
        unfold sliderHighMidRatio clampQ
        exact le_max_right _ _
      unfold sliderHighRatio clampQ
      exact max_le h1 (le_trans h2 h3)
  · intro y hxy
    have hcy : c ≤ clampQ y 1.5 7 := clampQ_mono _ _ hxy
    unfold sliderLowRatio sliderLowMidRatio sliderMidRatio sliderHighMidRatio sliderHighRatio
    exact ⟨clampQ_mono _ _ (by linarith), clampQ_mono _ _ (by linarith),
      clampQ_mono _ _ (by linarith), clampQ_mono _ _ (by linarith),
      clampQ_mono _ _ (by linarith)⟩

/-- C8 witness: slider values 2 <= 5, low band ratio non-decreasing. -/
theorem C8_slider_ratios_witness :
    (2 : ℚ) ≤ 5 ∧ sliderLowRatio (clampQ 2 1.5 7) ≤ sliderLowRatio (clampQ 5 1.5 7) :=
  ⟨by norm_num, ((C8_slider_ratios 2).2 5 (by norm_num)).1⟩

/-- C10.  For every preset, in both render passes and for any trim value and
channel count: when the caller's autoTune flag is set the warmth coloration
node (peaking, 400 Hz, -2 dB, Q 1.2) is inserted into the serial signal path,
and in general the warmth node is present exactly when special == bigcappo or
the autoTune flag is set. -/
theorem C10_warmth_stage (dbToLin : ℚ → ℚ) (key : PresetKey) (auto : Bool)
    (mode : RenderMode) (trimDb : ℚ) (numChannels : ℕ) :
    (auto = true →
      StageDesc.peaking 400 (-2) 1.2 ∈
        renderPresetGraphStages dbToLin (buildDSPForPreset key) auto mode trimDb numChannels) ∧
      (StageDesc.peaking 400 (-2) 1.2 ∈
          renderPresetGraphStages dbToLin (buildDSPForPreset key) auto mode trimDb numChannels ↔
        ((buildDSPForPreset key).special = some "bigcappo" ∨ auto = true)) := by
  have hEq : StageDesc.peaking 400 (-2) 1.2 ∉
      applyFilterChainStages (buildDSPForPreset key).eq := by
    cases key <;>
      norm_num [applyFilterChainStages, buildDSPForPreset, EXACT_PRESETS, presetSettings]
  have hBus : StageDesc.peaking 400 (-2) 1.2 ∉
      applyBusCompStages (buildDSPForPreset key).busComp := by
    cases key <;>
      norm_num [applyBusCompStages, buildDSPForPreset, EXACT_PRESETS, presetSettings,
        Option.orElse]
  have hStereo : StageDesc.peaking 400 (-2) 1.2 ∉
      (if numChannels < 2 then ([] : List StageDesc)
       else [.stereoStage (buildDSPForPreset key).stereo]) := by
    split <;> simp
  have hMode : StageDesc.peaking 400 (-2) 1.2 ∉
      (match mode with
       | RenderMode.preOutput => ([] : List StageDesc)
       | RenderMode.final =>
           [.gainStage (dbToLin trimDb),
            .compressor (buildDSPForPreset key).output.limiter.ratio
              (buildDSPForPreset key).output.limiter.thresholdDb
              (buildDSPForPreset key).output.limiter.kneeDb
              (buildDSPForPreset key).output.limiter.attackSec
              (buildDSPForPreset key).output.limiter.releaseSec,
            .gainStage (dbToLin (buildDSPForPreset key).output.ceilingDbFS)]) := by
    cases mode <;> simp
  have hiff : StageDesc.peaking 400 (-2) 1.2 ∈
      renderPresetGraphStages dbToLin (buildDSPForPreset key) auto mode trimDb numChannels ↔
      ((buildDSPForPreset key).special = some "bigcappo" ∨ auto = true) := by
    unfold renderPresetGraphStages
    by_cases hcond : (buildDSPForPreset key).special = some "bigcappo" ∨ auto = true
    · rw [if_pos hcond]
      refine iff_of_true ?_ hcond
      simp [List.mem_append]
    · rw [if_neg hcond]
      refine iff_of_false ?_ hcond
      have nm : ∀ {l1 l2 : List StageDesc},
          StageDesc.peaking 400 (-2) 1.2 ∉ l1 → StageDesc.peaking 400 (-2) 1.2 ∉ l2 →
          StageDesc.peaking 400 (-2) 1.2 ∉ l1 ++ l2 :=
        fun h1 h2 hm => (List.mem_append.mp hm).elim h1 h2
      exact nm (nm (nm (nm (nm (nm (by simp) hEq) (by simp)) hBus) (by simp)) hStereo) hMode
  exact ⟨fun ha => hiff.mpr (Or.inr ha), hiff⟩

/-- int16le always produces exactly two bytes. -/
theorem int16le_length (i : ℤ) : (int16le i).length = 2 := rfl

/-- Length of a flatMap over a range with constant chunk size. -/
theorem length_flatMap_range_const {α : Type} (f : ℕ → List α) (L : ℕ)
    (hf : ∀ i, (f i).length = L) (n : ℕ) :
    ((List.range n).flatMap f).length = n * L := by
  induction n with
  | zero => simp
  | succ m ih =>
    rw [List.range_succ, List.flatMap_append, List.length_append, ih]
    simp [hf, Nat.succ_mul]

/-- Dropping k whole chunks from a constant-chunk flatMap over a range exposes
chunk k at the front. -/
theorem flatMap_range_chunk {α : Type} (f : ℕ → List α) (L : ℕ)
    (hf : ∀ i, (f i).length = L) (n k : ℕ) (hk : k < n) :
    ((List.range n).flatMap f).drop (L * k) =
      f k ++ (List.range (n - (k + 1))).flatMap (fun j => f (k + (j + 1))) := by
  have hsplit : List.range n = List.range k ++ (List.range (n - k)).map (fun x => k + x) := by
    conv_lhs => rw [show n = k + (n - k) by omega]
    exact List.range_add k (n - k)
  rw [hsplit, List.flatMap_append,
    List.drop_left' (by rw [length_flatMap_range_const f L hf k, Nat.mul_comm]),
    List.flatMap_map]
  rw [show n - k = (n - (k + 1)) + 1 by omega, List.range_succ_eq_map, List.flatMap_cons,
    List.flatMap_map]
  rfl

/-- The PCM payload of bufferToWav holds 2 bytes per sample per channel. -/
theorem wavDataBytes_length (b : AudioBuf) :
    (wavDataBytes b).length = b.length * (b.channelData.length * 2) := by
  unfold wavDataBytes
  apply length_flatMap_range_const
  intro i
  apply length_flatMap_range_const
  intro c
  exact int16le_length _

/-- The bytes of bufferToWav from offset 44 on are exactly the PCM payload. -/
theorem bufferToWav_drop_44 (b : AudioBuf) : (bufferToWav b).drop 44 = wavDataBytes b := rfl

/-- getD with default 0 on an all-zero list is 0 at every index. -/
theorem getD_zero (l : List ℚ) (h : ∀ x ∈ l, x = 0) (i : ℕ) : l.getD i 0 = 0 := by
  induction l generalizing i with
  | nil => simp
  | cons a t ih =>
    cases i with
    | zero => simpa using h a (by simp)
    | succ j => simpa using ih (fun x hx => h x (by simp [hx])) j

/-- Every block of an all-zero buffer has mean square exactly 0. -/
theorem blockMeanSquare_zero (b : AudioBuf) (hz : ∀ ch ∈ b.channelData, ∀ x ∈ ch, x = 0)
    (s bl : ℕ) : blockMeanSquare b s bl = 0 := by
  unfold blockMeanSquare
  have hsum : (b.channelData.map (fun ch => sumSquares ch s bl / (bl : ℚ))).sum = 0 := by
    apply List.sum_eq_zero
    intro y hy
    rcases List.mem_map.mp hy with ⟨ch, hch, rfl⟩
    have hss : sumSquares ch s bl = 0 := by
      unfold sumSquares
      apply List.sum_eq_zero
      intro z hz2
      rcases List.mem_map.mp hz2 with ⟨j, _, rfl⟩
      rw [getD_zero ch (hz ch hch) (s + j)]
      ring
    rw [hss, zero_div]
  rw [hsum, zero_div]

/-- C4.  integratedLUFS_R128Gated is total and recovers gating degeneracy
locally: when the absolute gate eliminates every block the result is the
absolute-gate value -70; when the relative gate eliminates every remaining
block the result is the ungated estimate; and for an all-zero buffer holding
at least one complete 400 ms block the result is -70 (given only that the
abstract log10 maps the 1e-12 mean-square floor to -12). -/
theorem C4_lufs_gating_fallbacks (log10 pow10 : ℚ → ℚ) (b : AudioBuf) :
    (blocksOf log10 b ≠ [] → absGatedOf log10 b = [] →
      integratedLUFS_R128Gated log10 pow10 b = some (-70)) ∧
      (absGatedOf log10 b ≠ [] → relGatedOf log10 pow10 b = [] →
        integratedLUFS_R128Gated log10 pow10 b = some (ungatedOf log10 pow10 b)) ∧
      ((∀ ch ∈ b.channelData, ∀ x ∈ ch, x = 0) → blockLenOf b ≤ b.length →
        log10 1e-12 = -12 →
        integratedLUFS_R128Gated log10 pow10 b = some (-70)) := by
  refine ⟨?_, ?_, ?_⟩
  · intro h1 h2
    unfold integratedLUFS_R128Gated
    rw [if_neg h1, if_pos h2]
  · intro h1 h2
    have hb : blocksOf log10 b ≠ [] := by
      intro he
      exact h1 (by simp [absGatedOf, he])
    unfold integratedLUFS_R128Gated
    rw [if_neg hb, if_neg h1, if_pos h2]
  · intro hz hbl hlog
    have hstarts : blockStarts b ≠ [] := by
      simp [blockStarts, hbl]
    have hblocks : blocksOf log10 b ≠ [] := by
      unfold blocksOf
      simpa using hstarts
    have hval : ∀ v ∈ blocksOf log10 b, v = -0.691 + 10 * log10 1e-12 := by
      intro v hv
      rcases List.mem_map.mp hv with ⟨s, _, rfl⟩
      unfold blockLUFSval
      rw [blockMeanSquare_zero b hz s (blockLenOf b),
        max_eq_left (by norm_num : (0 : ℚ) ≤ 1e-12)]
    have habs : absGatedOf log10 b = [] := by
      unfold absGatedOf
      rw [List.filter_eq_nil_iff]
      intro a ha
      rw [hval a ha, hlog]
      simp only [decide_eq_true_eq, not_lt]
      norm_num
    unfold integratedLUFS_R128Gated
    rw [if_neg hblocks, if_pos habs]

/-- C4 witness: a 400 ms all-zero mono buffer at a 10 Hz sample rate (one
complete block), with a concrete log10 witness function. -/
theorem C4_lufs_gating_fallbacks_witness :
    (∀ ch ∈ (AudioBuf.mk 10 4 [[0, 0, 0, 0]]).channelData, ∀ x ∈ ch, x = 0) ∧
      blockLenOf (AudioBuf.mk 10 4 [[0, 0, 0, 0]]) ≤ (AudioBuf.mk 10 4 [[0, 0, 0, 0]]).length ∧
      (fun q : ℚ => if q = 1e-12 then (-12 : ℚ) else 0) 1e-12 = -12 ∧
      integratedLUFS_R128Gated (fun q : ℚ => if q = 1e-12 then (-12 : ℚ) else 0) (fun _ => 0)
        (AudioBuf.mk 10 4 [[0, 0, 0, 0]]) = some (-70) := by
  have hz : ∀ ch ∈ (AudioBuf.mk 10 4 [[0, 0, 0, 0]]).channelData, ∀ x ∈ ch, x = 0 := by
    simp
  have hbl : blockLenOf (AudioBuf.mk 10 4 [[0, 0, 0, 0]]) ≤
      (AudioBuf.mk 10 4 [[0, 0, 0, 0]]).length := by
    have h4 : ⌊(10 : ℚ) * 0.4⌋ = 4 := by norm_num
    simp [blockLenOf, h4]
  have hlog : (fun q : ℚ => if q = 1e-12 then (-12 : ℚ) else 0) 1e-12 = -12 := by simp
  exact ⟨hz, hbl, hlog,
    (C4_lufs_gating_fallbacks _ _ _).2.2 hz hbl hlog⟩

/-- The linear interpolation between two samples never exceeds the larger
endpoint magnitude. -/
theorem interp_abs_le (a b t : ℚ) (h0 : 0 ≤ t) (h1 : t ≤ 1) :
    |a + (b - a) * t| ≤ max |a| |b| := by
  have hrw : a + (b - a) * t = (1 - t) * a + t * b := by ring
  rw [hrw]
  calc |(1 - t) * a + t * b| ≤ |(1 - t) * a| + |t * b| := abs_add _ _
    _ = (1 - t) * |a| + t * |b| := by
        rw [abs_mul, abs_mul, abs_of_nonneg (by linarith), abs_of_nonneg h0]
    _ ≤ (1 - t) * max |a| |b| + t * max |a| |b| := by
        have ha := le_max_left |a| |b|
        have hb := le_max_right |a| |b|
        have h2 : (0 : ℚ) ≤ 1 - t := by linarith
        nlinarith
    _ = max |a| |b| := by ring

/-- Folding max over values all at or below the start leaves the start. -/
theorem foldl_max_absorb {β : Type} (g : β → ℚ) (l : List β) (acc : ℚ)
    (h : ∀ x ∈ l, g x ≤ acc) : l.foldl (fun a x => max a (g x)) acc = acc := by
  induction l with
  | nil => rfl
  | cons x t ih =>
    simp only [List.foldl_cons]
    rw [max_eq_left (h x (by simp))]
    exact ih fun y hy => h y (by simp [hy])

/-- The start value bounds a max-fold from below. -/
theorem le_foldl_max {β : Type} (g : β → ℚ) (l : List β) (acc : ℚ) :
    acc ≤ l.foldl (fun a x => max a (g x)) acc := by
  induction l generalizing acc with
  | nil => simp
  | cons x t ih =>
    simp only [List.foldl_cons]
    exact le_trans (le_max_left _ _) (ih _)

/-- Every listed value bounds a max-fold from below. -/
theorem mem_le_foldl_max {β : Type} (g : β → ℚ) (l : List β) (acc : ℚ) {x : β}
    (hx : x ∈ l) : g x ≤ l.foldl (fun a y => max a (g y)) acc := by
  induction l generalizing acc with
  | nil => cases hx
  | cons y t ih =>
    simp only [List.foldl_cons]
    rcases List.mem_cons.mp hx with rfl | hmem
    · exact le_trans (le_max_right _ _) (le_foldl_max g t _)
    · exact ih _ hmem

/-- A max-fold stays below any bound dominating the start and every value. -/
theorem foldl_max_le {β : Type} (g : β → ℚ) (l : List β) (acc M : ℚ)
    (h0 : acc ≤ M) (h : ∀ x ∈ l, g x ≤ M) :
    l.foldl (fun a x => max a (g x)) acc ≤ M := by
  induction l generalizing acc with
  | nil => exact h0
  | cons y t ih =>
    simp only [List.foldl_cons]
    exact ih _ (max_le h0 (h y (by simp))) fun z hz => h z (by simp [hz])

/-- With at least one oversampling step, the interpolated magnitudes are
absorbed and the pair scan reduces to the two endpoint magnitudes. -/
theorem pairPeak_eq (os : ℕ) (hos : 1 ≤ os) (a b p : ℚ) :
    pairPeak os a b p = max (max p |a|) |b| := by
  unfold pairPeak
  apply foldl_max_absorb
    (fun j : ℕ => |a + (b - a) * (((j : ℚ) + 1) / (os : ℚ))|)
    (List.range (os - 1)) (max (max p |a|) |b|)
  intro j hj
  have hjlt : j < os - 1 := List.mem_range.mp hj
  have hosQ : (0 : ℚ) < (os : ℚ) := by
    exact_mod_cast Nat.lt_of_lt_of_le Nat.zero_lt_one hos
  have ht0 : 0 ≤ ((j : ℚ) + 1) / (os : ℚ) := by positivity
  have ht1 : ((j : ℚ) + 1) / (os : ℚ) ≤ 1 := by
    rw [div_le_one hosQ]
    have hj1 : j + 1 ≤ os := by omega
    exact_mod_cast hj1
  exact le_trans (interp_abs_le a b _ ht0 ht1)
    (max_le_max (le_max_right _ _) le_rfl)

/-- For a channel with at least two samples, the pairwise oversampling scan
computes exactly the running maximum of all raw sample magnitudes. -/
theorem channelPeak_eq (os : ℕ) (hos : 1 ≤ os) (ch : List ℚ) (len : ℕ) (p : ℚ)
    (hlen : 2 ≤ len) :
    channelPeak os ch len p =
      (List.range len).foldl (fun acc i => max acc |ch.getD i 0|) p := by
  unfold channelPeak
  rw [List.foldl_ext _
    (fun acc i => max acc (max |ch.getD i 0| |ch.getD (i + 1) 0|)) p
    (fun acc i _ => by rw [pairPeak_eq os hos, max_assoc])]
  apply le_antisymm
  · apply foldl_max_le
    · exact le_foldl_max _ _ _
    · intro i hi
      have hi' := List.mem_range.mp hi
      apply max_le
      · exact mem_le_foldl_max _ _ _ (List.mem_range.mpr (by omega))
      · exact mem_le_foldl_max _ _ _ (List.mem_range.mpr (by omega))
  · apply foldl_max_le
    · exact le_foldl_max _ _ _
    · intro i hi
      have hi' := List.mem_range.mp hi
      by_cases hlt : i < len - 1
      · exact le_trans (le_max_left _ _)
          (mem_le_foldl_max _ _ _ (List.mem_range.mpr hlt))
      · have hieq : i = len - 1 := by omega
        have hmem2 : len - 2 ∈ List.range (len - 1) := List.mem_range.mpr (by omega)
        have hstep : |ch.getD i 0| ≤
            max |ch.getD (len - 2) 0| |ch.getD (len - 2 + 1) 0| := by
          have h21 : len - 2 + 1 = len - 1 := by omega
          rw [hieq, h21]
          exact le_max_right _ _
        exact le_trans hstep (mem_le_foldl_max _ _ _ hmem2)

/-- C9.  For every buffer with at least two samples per channel and every
oversample factor at or above 1, the linear peak accumulated by
estimateTruePeakDbFS equals the plain raw sample peak (linear interpolation
never exceeds the larger endpoint), so the reported value is
20 * log10(max(1e-12, sample peak)) independently of the oversample factor. -/
theorem C9_true_peak_equals_sample_peak (log10 : ℚ → ℚ) (b : AudioBuf) (os : ℕ)
    (hos : 1 ≤ os) (hlen : 2 ≤ b.length)
    (_hwf : ∀ ch ∈ b.channelData, ch.length = b.length) :
    truePeakLin b os = samplePeakLin b ∧
      estimateTruePeakDbFS log10 b os = 20 * log10 (max 1e-12 (samplePeakLin b)) := by
  have h1 : truePeakLin b os = samplePeakLin b := by
    unfold truePeakLin samplePeakLin
    exact List.foldl_ext _ _ 0 fun p ch _ => channelPeak_eq os hos ch b.length p hlen
  refine ⟨h1, ?_⟩
  unfold estimateTruePeakDbFS
  rw [h1]

/-- C9 witness: a 3-sample mono buffer at oversample factor 4. -/
theorem C9_true_peak_witness :
    1 ≤ 4 ∧ 2 ≤ (AudioBuf.mk 10 3 [[1/2, -3/4, 1/4]]).length ∧
      (∀ ch ∈ (AudioBuf.mk 10 3 [[1/2, -3/4, 1/4]]).channelData,
        ch.length = (AudioBuf.mk 10 3 [[1/2, -3/4, 1/4]]).length) ∧
      truePeakLin (AudioBuf.mk 10 3 [[1/2, -3/4, 1/4]]) 4 =
        samplePeakLin (AudioBuf.mk 10 3 [[1/2, -3/4, 1/4]]) := by
  have hwf : ∀ ch ∈ (AudioBuf.mk 10 3 [[1/2, -3/4, 1/4]]).channelData,
      ch.length = (AudioBuf.mk 10 3 [[1/2, -3/4, 1/4]]).length := by simp
  exact ⟨by norm_num, by norm_num, hwf,
    (C9_true_peak_equals_sample_peak (fun q => q) _ 4 (by norm_num) (by norm_num) hwf).1⟩

/-- C10 witness: preset deharsh (special is none), autoTune on, analysis pass,
stereo: the warmth node is in the path. -/
theorem C10_warmth_stage_witness :
    (true = true) ∧
      StageDesc.peaking 400 (-2) 1.2 ∈
        renderPresetGraphStages (fun q => q) (buildDSPForPreset PresetKey.deharsh) true
          RenderMode.preOutput 0 2 :=
  ⟨rfl, (C10_warmth_stage (fun q => q) PresetKey.deharsh true RenderMode.preOutput 0 2).1 rfl⟩

set_option maxHeartbeats 4000000 in
/-- C6.  bufferToWav emits exactly 44 + samples*channels*2 bytes: a
little-endian RIFF/WAVE header (RIFF size 36+dataLen, PCM format tag 1,
channel count, sample rate, block align channels*2, bits 16, data length
samples*channels*2) followed by the interleaved payload in which each sample
is clamped to [-1, 1] and scaled by 32768 when negative and 32767 otherwise. -/
theorem C6_wav_byte_layout (b : AudioBuf) (C : ℕ) (hC : b.channelData.length = C)
    (_hwf : ∀ ch ∈ b.channelData, ch.length = b.length) :
    (bufferToWav b).length = 44 + b.length * C * 2 ∧
      (bufferToWav b).take 4 = [82, 73, 70, 70] ∧
      ((bufferToWav b).drop 4).take 4 = u32le (36 + b.length * C * 2) ∧
      ((bufferToWav b).drop 20).take 2 = u16le 1 ∧
      ((bufferToWav b).drop 22).take 2 = u16le C ∧
      ((bufferToWav b).drop 24).take 4 = u32le b.sampleRate ∧
      ((bufferToWav b).drop 32).take 2 = u16le (C * 2) ∧
      ((bufferToWav b).drop 34).take 2 = u16le 16 ∧
      ((bufferToWav b).drop 40).take 4 = u32le (b.length * C * 2) ∧
      ∀ i c, i < b.length → c < C →
        ((bufferToWav b).drop (44 + 2 * (i * C + c))).take 2 =
          int16le (floatToInt16Q (b.sample c i)) := by
  subst hC
  have hrow : ∀ i, ((List.range b.channelData.length).flatMap
      (fun c => int16le (floatToInt16Q (b.sample c i)))).length =
      b.channelData.length * 2 := by
    intro i
    apply length_flatMap_range_const
    intro c
    exact int16le_length _
  refine ⟨?_, rfl, rfl, rfl, rfl, rfl, rfl, rfl, rfl, ?_⟩
  · have h44 : (bufferToWav b).length = 44 + (wavDataBytes b).length := by
      simp only [bufferToWav, u16le, u32le, List.append_assoc, List.cons_append,
        List.nil_append, List.length_append, List.length_cons]
      omega
    rw [h44, wavDataBytes_length b, Nat.mul_assoc]
  · intro i c hi hc
    have hd : (bufferToWav b).drop (44 + 2 * (i * b.channelData.length + c)) =
        (wavDataBytes b).drop (2 * (i * b.channelData.length + c)) := by
      rw [← List.drop_drop, bufferToWav_drop_44]
    rw [hd, show 2 * (i * b.channelData.length + c) =
      b.channelData.length * 2 * i + 2 * c by ring, ← List.drop_drop]
    unfold wavDataBytes
    rw [flatMap_range_chunk _ (b.channelData.length * 2) hrow b.length i hi,
      List.drop_append_of_le_length (by rw [hrow i]; omega),
      flatMap_range_chunk _ 2 (fun j => int16le_length _) b.channelData.length c hc,
      List.append_assoc,
      List.take_append_of_le_length (int16le_length _).ge]
    exact List.take_of_length_le (int16le_length _).le

/-- C6 witness: a mono buffer of two samples 1/2 and -1/2 at 8000 Hz. -/
theorem C6_wav_byte_layout_witness :
    ((AudioBuf.mk 8000 2 [[1/2, -1/2]]).channelData.length = 1) ∧
      (∀ ch ∈ (AudioBuf.mk 8000 2 [[1/2, -1/2]]).channelData,
        ch.length = (AudioBuf.mk 8000 2 [[1/2, -1/2]]).length) ∧
      ((bufferToWav (AudioBuf.mk 8000 2 [[1/2, -1/2]])).drop (44 + 2 * (0 * 1 + 0))).take 2 =
        int16le (floatToInt16Q ((AudioBuf.mk 8000 2 [[1/2, -1/2]]).sample 0 0)) := by
  have hC : (AudioBuf.mk 8000 2 [[1/2, -1/2]]).channelData.length = 1 := rfl
  have hwf : ∀ ch ∈ (AudioBuf.mk 8000 2 [[1/2, -1/2]]).channelData,
      ch.length = (AudioBuf.mk 8000 2 [[1/2, -1/2]]).length := by simp
  exact ⟨hC, hwf,
    (C6_wav_byte_layout (AudioBuf.mk 8000 2 [[1/2, -1/2]]) 1 hC hwf).2.2.2.2.2.2.2.2.2
      0 0 (by norm_num) (by norm_num)⟩

/-- A constant-chunk flatMap of all-zero chunks is an all-zero list. -/
theorem flatMap_range_replicate {α : Type} (f : ℕ → List α) (a : α) (L : ℕ)
    (hf : ∀ i, f i = List.replicate L a) (n : ℕ) :
    (List.range n).flatMap f = List.replicate (n * L) a := by
  induction n with
  | zero => simp
  | succ m ih =>
    rw [List.range_succ, List.flatMap_append, ih, List.flatMap_cons, hf m]
    simp [← List.replicate_add, Nat.succ_mul]

/-- All channel reads of an all-zero buffer return 0 (including the default
reads at out-of-range indices). -/
theorem channelD_zero (ls : List (List ℚ)) (h : ∀ ch ∈ ls, ∀ x ∈ ch, x = 0) (c : ℕ) :
    ∀ x ∈ ls.getD c [], x = 0 := by
  induction ls generalizing c with
  | nil => simp
  | cons a t ih =>
    cases c with
    | zero => simpa using h a (by simp)
    | succ j => simpa using ih (fun ch hch => h ch (by simp [hch])) j

/-- Every sample read of an all-zero buffer is 0. -/
theorem sample_zero (b : AudioBuf) (hz : ∀ ch ∈ b.channelData, ∀ x ∈ ch, x = 0)
    (c i : ℕ) : b.sample c i = 0 :=
  getD_zero _ (channelD_zero b.channelData hz c) i

/-- The zero sample converts to the zero int16 code. -/
theorem floatToInt16Q_zero : floatToInt16Q 0 = 0 := by
  norm_num [floatToInt16Q, truncQ, min_def, max_def]

/-- Decoding an all-zero PCM byte stream yields all-zero samples. -/
theorem decodePCM16_replicate_zero (n : ℕ) :
    decodePCM16 (List.replicate (2 * n) 0) = List.replicate n 0 := by
  induction n with
  | zero => rfl
  | succ m ih =>
    rw [show 2 * (m + 1) = 2 * m + 1 + 1 by ring, List.replicate_succ, List.replicate_succ,
      decodePCM16, ih]
    norm_num
    exact (List.replicate_succ _ _).symm

/-- C7.  Encoding an all-zero buffer yields an all-zero data chunk whose PCM
decoding is all-zero samples, and the header's data-length field equals
samples * channels * 2. -/
theorem C7_zero_buffer_roundtrip (b : AudioBuf)
    (hz : ∀ ch ∈ b.channelData, ∀ x ∈ ch, x = 0) :
    (bufferToWav b).drop 44 =
        List.replicate (b.length * b.channelData.length * 2) 0 ∧
      decodePCM16 ((bufferToWav b).drop 44) =
        List.replicate (b.length * b.channelData.length) 0 ∧
      ((bufferToWav b).drop 40).take 4 = u32le (b.length * b.channelData.length * 2) := by
  have hdata : wavDataBytes b = List.replicate (b.length * (b.channelData.length * 2)) 0 := by
    unfold wavDataBytes
    apply flatMap_range_replicate
    intro i
    apply flatMap_range_replicate
    intro c
    rw [sample_zero b hz c i, floatToInt16Q_zero]
    rfl
  have h1 : (bufferToWav b).drop 44 =
      List.replicate (b.length * b.channelData.length * 2) 0 := by
    rw [bufferToWav_drop_44, hdata, Nat.mul_assoc]
  refine ⟨h1, ?_, rfl⟩
  rw [h1, show b.length * b.channelData.length * 2 = 2 * (b.length * b.channelData.length) by ring,
    decodePCM16_replicate_zero]

/-- C7 witness: a two-sample all-zero mono buffer. -/
theorem C7_zero_buffer_roundtrip_witness :
    (∀ ch ∈ (AudioBuf.mk 8000 2 [[0, 0]]).channelData, ∀ x ∈ ch, x = 0) ∧
      (bufferToWav (AudioBuf.mk 8000 2 [[0, 0]])).drop 44 = List.replicate 4 0 := by
  have hz : ∀ ch ∈ (AudioBuf.mk 8000 2 [[0, 0]]).channelData, ∀ x ∈ ch, x = 0 := by simp
  exact ⟨hz, (C7_zero_buffer_roundtrip (AudioBuf.mk 8000 2 [[0, 0]]) hz).1⟩

end Lucky
